import Mathlib

/-!
Shallow embedding of the inventory reservation and order-management backend
(Django app `inventory`): the `Product` stock invariant (`models.py`), the
purchase workflow (`views.py`, `ReservationViewSet.perform_create`), the order
state machine (`models.py` `Order.TRANSITIONS` / `views.py`
`OrderViewSet.perform_update`), and the two expired-reservation reclamation
passes (`tasks.py` `cleanup_expired_reservations` and the management command
`cleanup_reservations.py` `handle`).

Modelling conventions:
* Django model instances become Lean structures; machine integers are `Int`
  (Python ints are unbounded, so no modular arithmetic is needed); the
  fixed-point `DecimalField` price is `ℚ`.
* The durable store is a `DbState` record of product rows, reservation rows
  and the append-only audit log.
* `transaction.atomic` is modelled by each workflow returning
  `DbState × Option InvErr`: an `.ok`/`none` outcome commits the new state,
  an error outcome returns the caller's input state unchanged (rollback) and
  reports the raised error.
-/

namespace Inventory

/-- Error taxonomy raised by the embedded code paths: `serializers.ValidationError`
with message "Insufficient stock", `Product.DoesNotExist` re-raised as
"Product not found", the `ValueError` of `Product.save`'s invariant check, and
the `ValidationError` of an invalid order status transition. -/
inductive InvErr where
  | insufficientStock
  | productNotFound
  | invariantViolation
  | invalidTransition
deriving DecidableEq, Repr

/-- JSON scalar values appearing in audit-log snapshots. -/
inductive JVal where
  | num (n : Int)
  | str (s : String)
deriving DecidableEq, Repr

/-- One row of the append-only `AuditLog` model: `old_value` / `new_value` are
the JSON-object snapshots (modelled as key/value lists), nullable. -/
structure AuditEntry where
  actor : String
  action : String
  object_type : String
  object_id : Nat
  old_value : Option (List (String × JVal))
  new_value : Option (List (String × JVal))
deriving DecidableEq, Repr

/-- The `Product` model row: `total_stock`, `available_stock`, `reserved_stock`
are `PositiveIntegerField`s in the schema, but in-memory Python values may be
negative before `save` clamps them, so they are `Int` here. -/
structure Product where
  id : Nat
  name : String
  price : ℚ
  total_stock : Int
  available_stock : Int
  reserved_stock : Int
deriving DecidableEq, Repr

/-- models.py line 26-27: `if self.available_stock is None:
self.available_stock = self.total_stock - self.reserved_stock`. -/
def fill_available (a? : Option Int) (reserved total : Int) : Int :=
  match a? with
  | none => total - reserved
  | some a => a

/-- The field logic of `Product.save` (models.py lines 24-37): fill a `None`
`available_stock` with `total_stock - reserved_stock`, clamp both mutable
fields to be non-negative with `max(0, _)`, then reject the write with a
`ValueError` unless `available_stock + reserved_stock == total_stock`;
on success the clamped pair is what `super().save()` persists. -/
def product_save_fields (a? : Option Int) (reserved total : Int) :
    Except InvErr (Int × Int) :=
  let a := max 0 (fill_available a? reserved total)
  let r := max 0 reserved
  if a + r = total then .ok (a, r) else .error .invariantViolation

/-- `Product.save` on a loaded row (whose `available_stock` is never `None`). -/
def Product.save (p : Product) : Except InvErr Product :=
  match product_save_fields (some p.available_stock) p.reserved_stock p.total_stock with
  | .ok (a, r) => .ok { p with available_stock := a, reserved_stock := r }
  | .error e => .error e

/-- A persisted product is well-formed: the stock invariant holds and neither
mutable stock field is negative. -/
def validProduct (p : Product) : Prop :=
  p.available_stock + p.reserved_stock = p.total_stock ∧
    0 ≤ p.available_stock ∧ 0 ≤ p.reserved_stock

instance (p : Product) : Decidable (validProduct p) := by
  unfold validProduct; infer_instance

/-- The `Reservation` model row; `expires_at` is an absolute timestamp
(seconds), `quantity` is validated non-negative by the serializer. -/
structure Reservation where
  id : Nat
  user : Option String
  product_id : Nat
  quantity : Nat
  expires_at : Int
deriving DecidableEq, Repr

/-- The durable relational store: product rows, reservation rows, and the
append-only audit log. -/
structure DbState where
  products : List Product
  reservations : List Reservation
  audit : List AuditEntry
deriving DecidableEq, Repr

/-- `Product.objects.get(id=product_id)` (the `select_for_update` lock is
modelled by running whole workflows sequentially). -/
def getProduct (st : DbState) (pid : Nat) : Option Product :=
  st.products.find? fun p => p.id == pid

/-- Persisting an updated product row: replace the row with the same id. -/
def setProduct (l : List Product) (p : Product) : List Product :=
  l.map fun q => if q.id == p.id then p else q

/-- views.py lines 60-67: the `stock_adjusted` audit row written by the
purchase workflow (and, with actor `"System"`, by both reclamation passes). -/
def stock_adjusted_entry (actor : String) (pid : Nat)
    (oldA oldR newA newR : Int) : AuditEntry :=
  { actor := actor
    action := "stock_adjusted"
    object_type := "Product"
    object_id := pid
    old_value := some [("available_stock", .num oldA), ("reserved_stock", .num oldR)]
    new_value := some [("available_stock", .num newA), ("reserved_stock", .num newR)] }

/-- views.py lines 73-79: the `reservation_created` audit row. -/
def reservation_created_entry (actor : String) (rid : Nat) (pname : String)
    (qty : Nat) : AuditEntry :=
  { actor := actor
    action := "reservation_created"
    object_type := "Reservation"
    object_id := rid
    old_value := none
    new_value := some [("product", .str pname), ("quantity", .num qty)] }

/-- tasks.py lines 30-37 / cleanup_reservations.py lines 36-43: the
`reservation_expired` audit row. -/
def reservation_expired_entry (rid : Nat) : AuditEntry :=
  { actor := "System"
    action := "reservation_expired"
    object_type := "Reservation"
    object_id := rid
    old_value := some [("status", .str "active")]
    new_value := some [("status", .str "expired")] }

/-- `ReservationViewSet.perform_create` (views.py lines 42-82): under one
atomic transaction with the product row locked, reject if
`available_stock < quantity`, otherwise decrement `available_stock`, increment
`reserved_stock`, `Product.save()`, write the `stock_adjusted` audit row,
persist the reservation with `expires_at = now + 10 minutes`, and write the
`reservation_created` audit row. Any raised error rolls the whole transaction
back: the returned state is the input state. -/
def perform_create (st : DbState) (product_id : Nat) (user : Option String)
    (quantity : Nat) (now : Int) (res_id : Nat) : DbState × Option InvErr :=
  match getProduct st product_id with
  | none => (st, some .productNotFound)
  | some product =>
    if product.available_stock < (quantity : Int) then
      (st, some .insufficientStock)
    else
      let old_available := product.available_stock
      let old_reserved := product.reserved_stock
      match Product.save { product with
          available_stock := product.available_stock - quantity,
          reserved_stock := product.reserved_stock + quantity } with
      | .error e => (st, some e)
      | .ok p2 =>
        let actor := user.getD "System"
        let e1 := stock_adjusted_entry actor p2.id old_available old_reserved
          p2.available_stock p2.reserved_stock
        let r : Reservation :=
          { id := res_id, user := user, product_id := product_id,
            quantity := quantity, expires_at := now + 600 }
        let e2 := reservation_created_entry actor res_id p2.name quantity
        ({ products := setProduct st.products p2,
           reservations := st.reservations ++ [r],
           audit := st.audit ++ [e1, e2] }, none)

/-- The six order statuses of `Order.STATUS_CHOICES` (models.py lines 66-73). -/
inductive OrderStatus where
  | pending
  | confirmed
  | processing
  | shipped
  | delivered
  | cancelled
deriving DecidableEq, Repr

/-- The string stored in the `status` column for each status. -/
def statusStr : OrderStatus → String
  | .pending => "pending"
  | .confirmed => "confirmed"
  | .processing => "processing"
  | .shipped => "shipped"
  | .delivered => "delivered"
  | .cancelled => "cancelled"

/-- `Order.TRANSITIONS` (models.py lines 75-82): the allowed-target table. -/
def TRANSITIONS : OrderStatus → List OrderStatus
  | .pending => [.confirmed, .cancelled]
  | .confirmed => [.processing, .cancelled]
  | .processing => [.shipped]
  | .shipped => [.delivered]
  | .delivered => []
  | .cancelled => []

/-- The `Order` model row; `total` is the stored `DecimalField`. -/
structure Order where
  id : Nat
  user : Option String
  product : Product
  quantity : Nat
  total : ℚ
  status : OrderStatus
deriving DecidableEq, Repr

/-- `Order.can_transition_to` (models.py lines 100-101): membership of the
requested status in the current status's row of the transition table. -/
def Order.can_transition_to (o : Order) (new_status : OrderStatus) : Bool :=
  (TRANSITIONS o.status).contains new_status

/-- `Order.save` (models.py lines 103-105): `self.total = self.quantity *
self.product.price`, then persist — `total` is recomputed on every save. -/
def Order.save (o : Order) : Order :=
  { o with total := (o.quantity : ℚ) * o.product.price }

/-- views.py lines 157-164: the `order_status_changed` audit row. -/
def order_status_changed_entry (actor : String) (oid : Nat)
    (old_status new_status : OrderStatus) : AuditEntry :=
  { actor := actor
    action := "order_status_changed"
    object_type := "Order"
    object_id := oid
    old_value := some [("status", .str (statusStr old_status))]
    new_value := some [("status", .str (statusStr new_status))] }

/-- `OrderViewSet.perform_update` (views.py lines 144-164): when the requested
status differs from the current one, raise a `ValidationError` unless
`can_transition_to` allows it; otherwise `serializer.save()` (which runs
`Order.save`, recomputing `total`) and, only when the status actually changed,
write one `order_status_changed` audit row. An error leaves order and audit
log unchanged. -/
def perform_update (o : Order) (new_status : OrderStatus) (actor : String)
    (audit : List AuditEntry) : (Order × List AuditEntry) × Option InvErr :=
  let old_status := o.status
  if new_status != old_status && !(o.can_transition_to new_status) then
    ((o, audit), some .invalidTransition)
  else
    let o2 := Order.save { o with status := new_status }
    if new_status != old_status then
      ((o2, audit ++ [order_status_changed_entry actor o.id old_status new_status]), none)
    else
      ((o2, audit), none)

/-- The body of the per-reservation `transaction.atomic` block of the Celery
task `cleanup_expired_reservations` (tasks.py lines 11-39): lock and reload
the product, add the reservation's quantity to `available_stock` and subtract
it from `reserved_stock` (NO clamp), `Product.save()`, write the
`stock_adjusted` and `reservation_expired` audit rows, delete the reservation.
A raised error (e.g. the save-time invariant `ValueError`) rolls this block
back: the input state is returned. -/
def task_release_step (st : DbState) (r : Reservation) : DbState × Option InvErr :=
  match getProduct st r.product_id with
  | none => (st, some .productNotFound)
  | some product =>
    let old_available := product.available_stock
    let old_reserved := product.reserved_stock
    match Product.save { product with
        available_stock := product.available_stock + r.quantity,
        reserved_stock := product.reserved_stock - r.quantity } with
    | .error e => (st, some e)
    | .ok p2 =>
      let e1 := stock_adjusted_entry "System" p2.id old_available old_reserved
        p2.available_stock p2.reserved_stock
      let e2 := reservation_expired_entry r.id
      ({ products := setProduct st.products p2,
         reservations := st.reservations.filter fun s => s.id != r.id,
         audit := st.audit ++ [e1, e2] }, none)

/-- The body of the per-reservation `transaction.atomic` block of the
management command `cleanup_reservations` (cleanup_reservations.py lines
14-46): identical to the task's block except that the released quantity is
clamped: `released_quantity = min(reservation.quantity, product.reserved_stock)`. -/
def command_release_step (st : DbState) (r : Reservation) : DbState × Option InvErr :=
  match getProduct st r.product_id with
  | none => (st, some .productNotFound)
  | some product =>
    let released_quantity := min (r.quantity : Int) product.reserved_stock
    let old_available := product.available_stock
    let old_reserved := product.reserved_stock
    match Product.save { product with
        available_stock := product.available_stock + released_quantity,
        reserved_stock := product.reserved_stock - released_quantity } with
    | .error e => (st, some e)
    | .ok p2 =>
      let e1 := stock_adjusted_entry "System" p2.id old_available old_reserved
        p2.available_stock p2.reserved_stock
      let e2 := reservation_expired_entry r.id
      ({ products := setProduct st.products p2,
         reservations := st.reservations.filter fun s => s.id != r.id,
         audit := st.audit ++ [e1, e2] }, none)

/-- The `for reservation in expired_reservations:` loop shared by both
reclamation passes. Neither loop body is wrapped in a `try`/`except`, so the
first raised error aborts the loop after rolling back only the failing
reservation's own transaction: states committed by earlier iterations remain
durable, later reservations are left unprocessed. -/
def run_cleanup (step : DbState → Reservation → DbState × Option InvErr) :
    List Reservation → DbState → DbState × Option InvErr
  | [], st => (st, none)
  | r :: rest, st =>
    match step st r with
    | (st2, none) => run_cleanup step rest st2
    | (st2, some e) => (st2, some e)

/-- `Reservation.objects.filter(expires_at__lt=timezone.now())`. -/
def expired_filter (now : Int) (rs : List Reservation) : List Reservation :=
  rs.filter fun r => r.expires_at < now

/-- The Celery task `cleanup_expired_reservations` (tasks.py lines 7-39). -/
def cleanup_expired_reservations (now : Int) (st : DbState) :
    DbState × Option InvErr :=
  run_cleanup task_release_step (expired_filter now st.reservations) st

/-- The management command `cleanup_reservations` `handle` (lines 10-47),
state effects only (the printed counter is not modelled). -/
def command_handle (now : Int) (st : DbState) : DbState × Option InvErr :=
  run_cleanup command_release_step (expired_filter now st.reservations) st

/-- One abstract stock mutation, as named by the spec's Stock Ledger:
`reserve` is the adjustment performed by the purchase workflow
(views.py lines 50-57), `release` the clamped adjustment performed by the
reclamation command (cleanup_reservations.py lines 19-24). -/
inductive StockOp where
  | reserve (qty : Nat)
  | release (qty : Nat)
deriving DecidableEq, Repr

/-- Apply one stock operation to a product row and run `Product.save`. -/
def applyStockOp (p : Product) : StockOp → Except InvErr Product
  | .reserve qty =>
    if p.available_stock < (qty : Int) then .error .insufficientStock
    else Product.save { p with
      available_stock := p.available_stock - qty,
      reserved_stock := p.reserved_stock + qty }
  | .release qty =>
    let released := min (qty : Int) p.reserved_stock
    Product.save { p with
      available_stock := p.available_stock + released,
      reserved_stock := p.reserved_stock - released }

/-- The successive committed rows produced by a sequence of stock operations;
a failed save commits nothing and ends the sequence. -/
def stockTrace : List StockOp → Product → List Product
  | [], _ => []
  | op :: rest, p =>
    match applyStockOp p op with
    | .ok q => q :: stockTrace rest q
    | .error _ => []

/-- `k` sequential one-product purchase attempts (the per-product
`select_for_update` row lock serializes concurrent attempts, so any
interleaving of `k` concurrent requests executes as this sequence). Returns
(number of successes, number of failures, final state). Attempt `i` requests
`qty` units; a failed attempt leaves the state unchanged and later attempts
still run. -/
def run_purchases (pid : Nat) (qty : Nat) : Nat → DbState → Nat × Nat × DbState
  | 0, st => (0, 0, st)
  | k + 1, st =>
    match perform_create st pid none qty 0 k with
    | (st2, none) =>
      let (s, f, stF) := run_purchases pid qty k st2
      (s + 1, f, stF)
    | (st2, some _) =>
      let (s, f, stF) := run_purchases pid qty k st2
      (s, f + 1, stF)

/-! Concrete rows used to instantiate the theorems below. -/

/-- A product with all five units available (total 5, available 5, reserved 0). -/
def cexProduct : Product := ⟨1, "Test", 10, 5, 5, 0⟩

/-- An expired reservation for 3 units of `cexProduct`, more than is currently
reserved (0 units). -/
def cexReservation : Reservation := ⟨1, none, 1, 3, 0⟩

/-- A second, smaller expired reservation, queued after `cexReservation`. -/
def cexReservation2 : Reservation := ⟨2, none, 1, 1, 0⟩

/-- Store holding `cexProduct` and the single expired `cexReservation`. -/
def cexState : DbState := ⟨[cexProduct], [cexReservation], []⟩

/-- Store holding `cexProduct` and both expired reservations. -/
def cexBatchState : DbState := ⟨[cexProduct], [cexReservation, cexReservation2], []⟩

/-- Store holding only `cexProduct`, with no reservations or audit rows. -/
def demoState : DbState := ⟨[cexProduct], [], []⟩

/-- A pending order for 3 units of `cexProduct` (price 10) whose stored
`total` field carries a caller-submitted junk value. -/
def demoOrder : Order := ⟨1, none, cexProduct, 3, 999, .pending⟩

/-- A delivered order (terminal status). -/
def demoDelivered : Order := ⟨2, none, cexProduct, 1, 10, .delivered⟩

/-- A product with 5 of 10 units reserved. -/
def w6Product : Product := ⟨1, "Test", 10, 10, 5, 5⟩

/-- An expired reservation the task reclaims successfully (2 ≤ 5 reserved). -/
def w6good : Reservation := ⟨1, none, 1, 2, 0⟩

/-- An expired reservation whose quantity 4 exceeds the 3 units that remain
reserved after `w6good` is reclaimed, so the task's save fails on it. -/
def w6bad : Reservation := ⟨2, none, 1, 4, 0⟩

/-- An expired reservation queued after `w6bad`. -/
def w6later : Reservation := ⟨3, none, 1, 1, 0⟩

/-- Store for the batch-isolation witness. -/
def w6State : DbState := ⟨[w6Product], [w6good, w6bad, w6later], []⟩

/-- The store after the task has reclaimed `w6good` alone. -/
def w6Mid : DbState := (run_cleanup task_release_step [w6good] w6State).1

/-- A product with 3 of 10 units reserved. -/
def w5Product : Product := ⟨1, "Test", 10, 10, 7, 3⟩

/-- An expired reservation for exactly the 3 reserved units of `w5Product`. -/
def w5Res : Reservation := ⟨1, none, 1, 3, 0⟩

/-! Helper lemmas about `Product.save`. -/

theorem product_save_fields_ok {a? : Option Int} {r t a' r' : Int}
    (h : product_save_fields a? r t = .ok (a', r')) :
    0 ≤ a' ∧ 0 ≤ r' ∧ a' + r' = t := by
  simp only [product_save_fields] at h
  split at h
  · rename_i hsum
    simp only [Except.ok.injEq, Prod.mk.injEq] at h
    obtain ⟨h1, h2⟩ := h
    subst h1; subst h2
    exact ⟨le_max_left 0 _, le_max_left 0 _, hsum⟩
  · exact absurd h (by simp)

theorem product_save_fields_of_valid {a r t : Int} (ha : 0 ≤ a) (hr : 0 ≤ r)
    (hs : a + r = t) : product_save_fields (some a) r t = .ok (a, r) := by
  simp [product_save_fields, fill_available, max_eq_right ha, max_eq_right hr, hs]

theorem product_save_fields_reject {a? : Option Int} {r t : Int}
    (h : max 0 (fill_available a? r t) + max 0 r ≠ t) :
    product_save_fields a? r t = .error InvErr.invariantViolation := by
  simp only [product_save_fields]
  split
  · rename_i hsum; exact absurd hsum h
  · rfl

theorem Product_save_of_valid {p : Product} (h : validProduct p) :
    Product.save p = .ok p := by
  obtain ⟨hs, ha, hr⟩ := h
  unfold Product.save
  rw [product_save_fields_of_valid ha hr hs]

theorem Product_save_ok_valid {p q : Product} (h : Product.save p = .ok q) :
    validProduct q := by
  unfold Product.save at h
  split at h
  · rename_i a r heq
    obtain ⟨h1, h2, h3⟩ := product_save_fields_ok heq
    injection h with h4
    subst h4
    exact ⟨h3, h1, h2⟩
  · exact absurd h (by simp)

/-! Helper lemmas about single-product stores. -/

theorem getProduct_single {p : Product} {pid : Nat}
    (rs : List Reservation) (aud : List AuditEntry) (h : p.id = pid) :
    getProduct ⟨[p], rs, aud⟩ pid = some p := by
  simp [getProduct, List.find?, h]

theorem setProduct_single {p q : Product} (h : q.id = p.id) :
    setProduct [p] q = [q] := by
  simp [setProduct, h]

/-! Helper lemmas about the purchase workflow. -/

theorem perform_create_insufficient {st : DbState} {pid : Nat} {p : Product}
    (u : Option String) {qty : Nat} (now : Int) (rid : Nat)
    (hget : getProduct st pid = some p)
    (hlt : p.available_stock < (qty : Int)) :
    perform_create st pid u qty now rid = (st, some .insufficientStock) := by
  unfold perform_create
  rw [hget]
  simp [hlt]

theorem perform_create_success {p : Product} {pid : Nat} (u : Option String)
    {qty : Nat} (now : Int) (rid : Nat) (rs : List Reservation)
    (aud : List AuditEntry) (hid : p.id = pid) (hv : validProduct p)
    (hq : (qty : Int) ≤ p.available_stock) :
    perform_create ⟨[p], rs, aud⟩ pid u qty now rid =
      (⟨[{ p with
           available_stock := p.available_stock - qty,
           reserved_stock := p.reserved_stock + qty }],
        rs ++ [⟨rid, u, pid, qty, now + 600⟩],
        aud ++ [stock_adjusted_entry (u.getD "System") p.id p.available_stock
            p.reserved_stock (p.available_stock - qty) (p.reserved_stock + qty),
          reservation_created_entry (u.getD "System") rid p.name qty]⟩, none) := by
  obtain ⟨hs, ha, hr⟩ := hv
  have hv2 : validProduct { p with
      available_stock := p.available_stock - qty,
      reserved_stock := p.reserved_stock + qty } := by
    refine ⟨?_, ?_, ?_⟩ <;> simp <;> omega
  unfold perform_create
  rw [getProduct_single rs aud hid]
  dsimp only
  rw [if_neg (by omega)]
  rw [Product_save_of_valid hv2]
  dsimp only
  simp [setProduct]

theorem perform_create_rollback {st : DbState} {pid : Nat} {u : Option String}
    {qty : Nat} {now : Int} {rid : Nat} {st' : DbState} {e : InvErr}
    (h : perform_create st pid u qty now rid = (st', some e)) : st' = st := by
  unfold perform_create at h
  split at h
  · exact (congrArg Prod.fst h).symm
  · split at h
    · exact (congrArg Prod.fst h).symm
    · split at h
      · exact (congrArg Prod.fst h).symm
      · exact absurd (congrArg Prod.snd h) (by simp)

theorem perform_create_audit_of_ok {st : DbState} {pid : Nat} {u : Option String}
    {qty : Nat} {now : Int} {rid : Nat} {st' : DbState}
    (h : perform_create st pid u qty now rid = (st', none)) :
    ∃ e1 e2, st'.audit = st.audit ++ [e1, e2] ∧ e1.action = "stock_adjusted" ∧
      e2.action = "reservation_created" := by
  unfold perform_create at h
  split at h
  · exact absurd (congrArg Prod.snd h) (by simp)
  · split at h
    · exact absurd (congrArg Prod.snd h) (by simp)
    · split at h
      · exact absurd (congrArg Prod.snd h) (by simp)
      · have hst := congrArg (fun x => x.1.audit) h
        dsimp only at hst
        exact ⟨_, _, hst.symm, rfl, rfl⟩

/-! Helper lemmas about order status updates. -/

theorem perform_update_invalid {o : Order} {s : OrderStatus} (actor : String)
    (aud : List AuditEntry) (hne : s ≠ o.status)
    (hcan : o.can_transition_to s = false) :
    perform_update o s actor aud = ((o, aud), some .invalidTransition) := by
  unfold perform_update
  rw [if_pos (by simp [bne_iff_ne, hne, hcan])]

theorem perform_update_changed_ok {o : Order} {s : OrderStatus} (actor : String)
    (aud : List AuditEntry) (hne : s ≠ o.status)
    (hcan : o.can_transition_to s = true) :
    perform_update o s actor aud =
      ((Order.save { o with status := s },
        aud ++ [order_status_changed_entry actor o.id o.status s]), none) := by
  unfold perform_update
  rw [if_neg (by simp [hcan])]
  rw [if_pos (by simp [bne_iff_ne, hne])]

theorem perform_update_same (o : Order) (actor : String)
    (aud : List AuditEntry) :
    perform_update o o.status actor aud = ((Order.save o, aud), none) := by
  unfold perform_update
  rw [if_neg (by simp [bne_self_eq_false])]
  rw [if_neg (by simp [bne_self_eq_false])]

theorem can_transition_terminal {o : Order} (s : OrderStatus)
    (h : o.status = .delivered ∨ o.status = .cancelled) :
    o.can_transition_to s = false := by
  unfold Order.can_transition_to
  rcases h with h | h <;> rw [h] <;> rfl

theorem perform_update_rollback {o : Order} {s : OrderStatus} {actor : String}
    {aud : List AuditEntry} {o' : Order} {aud' : List AuditEntry} {e : InvErr}
    (h : perform_update o s actor aud = ((o', aud'), some e)) : o' = o ∧ aud' = aud := by
  unfold perform_update at h
  dsimp only at h
  split at h
  · exact ⟨congrArg (fun x => x.1.1) h.symm, congrArg (fun x => x.1.2) h.symm⟩
  · split at h <;> exact absurd (congrArg (fun x => x.2) h) (by simp)

theorem perform_update_audit_of_ok {o : Order} {s : OrderStatus} {actor : String}
    {aud : List AuditEntry} {o' : Order} {aud' : List AuditEntry}
    (hne : s ≠ o.status)
    (h : perform_update o s actor aud = ((o', aud'), none)) :
    aud' = aud ++ [order_status_changed_entry actor o.id o.status s] := by
  by_cases hcan : o.can_transition_to s
  · rw [perform_update_changed_ok actor aud hne hcan] at h
    exact (congrArg (fun x => x.1.2) h).symm
  · rw [perform_update_invalid actor aud hne (by simpa using hcan)] at h
    exact absurd (congrArg (fun x => x.2) h) (by simp)

/-! Helper lemmas about the reclamation steps. -/

theorem task_release_step_cases (st : DbState) (r : Reservation) :
    (task_release_step st r).1 = st ∨ (task_release_step st r).2 = none := by
  unfold task_release_step
  split
  · exact Or.inl rfl
  · split
    · exact Or.inl rfl
    · exact Or.inr rfl

theorem task_release_step_rollback {st : DbState} {r : Reservation} {e : InvErr}
    (h : (task_release_step st r).2 = some e) : (task_release_step st r).1 = st := by
  rcases task_release_step_cases st r with h1 | h1
  · exact h1
  · rw [h1] at h; exact absurd h (by simp)

theorem command_release_step_single {p : Product} {r : Reservation}
    (rs : List Reservation) (aud : List AuditEntry)
    (hid : p.id = r.product_id) (hv : validProduct p) :
    command_release_step ⟨[p], rs, aud⟩ r =
      (⟨[{ p with
           available_stock := p.available_stock + min (r.quantity : Int) p.reserved_stock,
           reserved_stock := p.reserved_stock - min (r.quantity : Int) p.reserved_stock }],
        rs.filter (fun s => s.id != r.id),
        aud ++ [stock_adjusted_entry "System" p.id p.available_stock p.reserved_stock
            (p.available_stock + min (r.quantity : Int) p.reserved_stock)
            (p.reserved_stock - min (r.quantity : Int) p.reserved_stock),
          reservation_expired_entry r.id]⟩, none) := by
  obtain ⟨hs, ha, hr⟩ := hv
  have hv2 : validProduct { p with
      available_stock := p.available_stock + min (r.quantity : Int) p.reserved_stock,
      reserved_stock := p.reserved_stock - min (r.quantity : Int) p.reserved_stock } := by
    refine ⟨?_, ?_, ?_⟩ <;> simp <;> omega
  unfold command_release_step
  rw [getProduct_single rs aud hid]
  dsimp only
  rw [Product_save_of_valid hv2]
  dsimp only
  simp [setProduct]

theorem task_release_step_clamped {p : Product} {r : Reservation}
    (rs : List Reservation) (aud : List AuditEntry)
    (hid : p.id = r.product_id)
    (hq : (r.quantity : Int) ≤ p.reserved_stock) :
    task_release_step ⟨[p], rs, aud⟩ r = command_release_step ⟨[p], rs, aud⟩ r := by
  unfold task_release_step command_release_step
  rw [getProduct_single rs aud hid]
  dsimp only
  rw [min_eq_left hq]

theorem task_release_step_overrelease {p : Product} {r : Reservation}
    (rs : List Reservation) (aud : List AuditEntry)
    (hid : p.id = r.product_id) (hv : validProduct p)
    (hq : p.reserved_stock < (r.quantity : Int)) :
    task_release_step ⟨[p], rs, aud⟩ r =
      (⟨[p], rs, aud⟩, some InvErr.invariantViolation) := by
  obtain ⟨hs, ha, hr⟩ := hv
  have hbad : Product.save { p with
      available_stock := p.available_stock + r.quantity,
      reserved_stock := p.reserved_stock - r.quantity } =
      .error InvErr.invariantViolation := by
    unfold Product.save
    rw [product_save_fields_reject (by simp [fill_available]; omega)]
  unfold task_release_step
  rw [getProduct_single rs aud hid]
  dsimp only
  rw [hbad]

/-! Helper lemmas about stock-operation sequences. -/

theorem applyStockOp_ok_valid {p q : Product} {op : StockOp}
    (h : applyStockOp p op = .ok q) : validProduct q := by
  cases op with
  | reserve qty =>
    unfold applyStockOp at h
    dsimp only at h
    by_cases hc : p.available_stock < (qty : Int)
    · rw [if_pos hc] at h
      exact Except.noConfusion h
    · rw [if_neg hc] at h
      exact Product_save_ok_valid h
  | release qty =>
    unfold applyStockOp at h
    exact Product_save_ok_valid h

theorem stockTrace_valid (ops : List StockOp) (p : Product) :
    ∀ q ∈ stockTrace ops p, validProduct q := by
  induction ops generalizing p with
  | nil => simp [stockTrace]
  | cons op rest ih =>
    intro q hq
    unfold stockTrace at hq
    rcases happ : applyStockOp p op with e | p'
    · rw [happ] at hq; simp at hq
    · rw [happ] at hq
      rcases List.mem_cons.mp hq with h | h
      · subst h; exact applyStockOp_ok_valid happ
      · exact ih p' q h

/-! Helper lemma counting sequential one-unit purchase attempts. -/

theorem run_purchases_count (pid : Nat) (k : Nat) :
    ∀ (p : Product) (rs : List Reservation) (aud : List AuditEntry) (A : Nat),
      p.id = pid → validProduct p → p.available_stock = (A : Int) →
      (run_purchases pid 1 k ⟨[p], rs, aud⟩).1 = min A k ∧
      (run_purchases pid 1 k ⟨[p], rs, aud⟩).2.1 = k - min A k ∧
      ∃ q rs2 aud2, (run_purchases pid 1 k ⟨[p], rs, aud⟩).2.2 = ⟨[q], rs2, aud2⟩ ∧
        q.id = pid ∧ validProduct q ∧
        q.available_stock = p.available_stock - (min A k : Nat) ∧
        q.reserved_stock = p.reserved_stock + (min A k : Nat) := by
  induction k with
  | zero =>
    intro p rs aud A hid hv hA
    refine ⟨?_, ?_, p, rs, aud, rfl, hid, hv, ?_, ?_⟩
    · show (0 : Nat) = min A 0
      omega
    · show (0 : Nat) = 0 - min A 0
      omega
    · show p.available_stock = p.available_stock - ((min A 0 : Nat) : Int)
      omega
    · show p.reserved_stock = p.reserved_stock + ((min A 0 : Nat) : Int)
      omega
  | succ k ih =>
    intro p rs aud A hid hv hA
    rcases A with _ | A'
    · have hlt : p.available_stock < ((1 : Nat) : Int) := by
        rw [hA]; norm_num
      have hfail := perform_create_insufficient none 0 k
        (getProduct_single rs aud hid) hlt
      obtain ⟨h1, h2, q, rs2, aud2, h3, h4, h5, h6, h7⟩ := ih p rs aud 0 hid hv hA
      rcases hrun : run_purchases pid 1 k ⟨[p], rs, aud⟩ with ⟨s, f, stF⟩
      rw [hrun] at h1 h2 h3
      have hred : run_purchases pid 1 (k + 1) ⟨[p], rs, aud⟩ = (s, f + 1, stF) := by
        unfold run_purchases
        rw [hfail]
        dsimp only
        rw [hrun]
      rw [hred]
      refine ⟨by simpa using h1, by simp at h2 ⊢; omega, q, rs2, aud2, h3, h4, h5, ?_, ?_⟩
      · simpa using h6
      · simpa using h7
    · have hq1 : ((1 : Nat) : Int) ≤ p.available_stock := by rw [hA]; omega
      have hstep := perform_create_success none 0 k rs aud hid hv hq1
      have hv2 : validProduct { p with
          available_stock := p.available_stock - (1 : Nat),
          reserved_stock := p.reserved_stock + (1 : Nat) } := by
        obtain ⟨hs, ha, hr⟩ := hv
        refine ⟨?_, ?_, ?_⟩ <;> simp <;> omega
      have hA2 : ({ p with
          available_stock := p.available_stock - (1 : Nat),
          reserved_stock := p.reserved_stock + (1 : Nat) } : Product).available_stock
          = (A' : Int) := by
        simp; omega
      obtain ⟨h1, h2, q, rs2, aud2, h3, h4, h5, h6, h7⟩ :=
        ih { p with
            available_stock := p.available_stock - (1 : Nat),
            reserved_stock := p.reserved_stock + (1 : Nat) }
          (rs ++ [⟨k, none, pid, 1, (0 : Int) + 600⟩])
          (aud ++ [stock_adjusted_entry ((none : Option String).getD "System") p.id
              p.available_stock p.reserved_stock
              (p.available_stock - (1 : Nat)) (p.reserved_stock + (1 : Nat)),
            reservation_created_entry ((none : Option String).getD "System") k p.name 1])
          A' hid hv2 hA2
      rcases hrun : run_purchases pid 1 k ⟨[{ p with
          available_stock := p.available_stock - (1 : Nat),
          reserved_stock := p.reserved_stock + (1 : Nat) }],
        rs ++ [⟨k, none, pid, 1, (0 : Int) + 600⟩],
        aud ++ [stock_adjusted_entry ((none : Option String).getD "System") p.id
            p.available_stock p.reserved_stock
            (p.available_stock - (1 : Nat)) (p.reserved_stock + (1 : Nat)),
          reservation_created_entry ((none : Option String).getD "System") k p.name 1]⟩
        with ⟨s, f, stF⟩
      rw [hrun] at h1 h2 h3
      have hred : run_purchases pid 1 (k + 1) ⟨[p], rs, aud⟩ = (s + 1, f, stF) := by
        unfold run_purchases
        rw [hstep]
        dsimp only
        rw [hrun]
      rw [hred]
      simp only at h1 h2 h3 h6 h7
      refine ⟨?_, ?_, q, rs2, aud2, h3, h4, h5, ?_, ?_⟩
      · show s + 1 = min (A' + 1) (k + 1)
        omega
      · show f = k + 1 - min (A' + 1) (k + 1)
        omega
      · show q.available_stock = p.available_stock - ((min (A' + 1) (k + 1) : Nat) : Int)
        rw [h6]
        simp
        omega
      · show q.reserved_stock = p.reserved_stock + ((min (A' + 1) (k + 1) : Nat) : Int)
        rw [h7]
        simp
        omega

/-! Claim theorems. -/

/-- C1: after every committed write of any reserve/release sequence the
product satisfies available_stock + reserved_stock = total_stock with both
fields non-negative, and any save whose filled-and-clamped fields violate the
equality fails with the invariant-violation error, so the write is not made
durable. -/
theorem stock_invariant_enforced :
    (∀ (ops : List StockOp) (p : Product), ∀ q ∈ stockTrace ops p, validProduct q) ∧
    (∀ (a? : Option Int) (r t : Int),
      max 0 (fill_available a? r t) + max 0 r ≠ t →
      product_save_fields a? r t = .error InvErr.invariantViolation) :=
  ⟨stockTrace_valid, fun _ _ _ h => product_save_fields_reject h⟩

/-- Witness for C1: the committed state after reserving 3 of the 5 available
units is valid, and the save of an unbalanced triple (4, 3, 5) errors. -/
theorem stock_invariant_enforced_witness :
    validProduct { cexProduct with available_stock := 2, reserved_stock := 3 } ∧
    product_save_fields (some 4) 3 5 = .error InvErr.invariantViolation :=
  ⟨stock_invariant_enforced.1 [StockOp.reserve 3] cexProduct
      { cexProduct with available_stock := 2, reserved_stock := 3 } (by decide),
   stock_invariant_enforced.2 (some 4) 3 5 (by decide)⟩

/-- C2: the purchase reserve step succeeds exactly when available_stock ≥ qty,
in which case it decrements available_stock and increments reserved_stock by
qty (and appends the reservation and its two audit rows); when
available_stock < qty it fails with the insufficient-stock error and the
resulting store — product rows, reservations and audit log — is exactly the
caller's input. -/
theorem reserve_contract (p : Product) (pid : Nat) (u : Option String)
    (qty : Nat) (now : Int) (rid : Nat) (rs : List Reservation)
    (aud : List AuditEntry) (hid : p.id = pid) (hv : validProduct p) :
    (((qty : Int) ≤ p.available_stock →
      perform_create ⟨[p], rs, aud⟩ pid u qty now rid =
        (⟨[{ p with
             available_stock := p.available_stock - qty,
             reserved_stock := p.reserved_stock + qty }],
          rs ++ [⟨rid, u, pid, qty, now + 600⟩],
          aud ++ [stock_adjusted_entry (u.getD "System") p.id p.available_stock
              p.reserved_stock (p.available_stock - qty) (p.reserved_stock + qty),
            reservation_created_entry (u.getD "System") rid p.name qty]⟩, none))) ∧
    (p.available_stock < (qty : Int) →
      perform_create ⟨[p], rs, aud⟩ pid u qty now rid =
        (⟨[p], rs, aud⟩, some InvErr.insufficientStock)) :=
  ⟨fun hq => perform_create_success u now rid rs aud hid hv hq,
   fun hlt => perform_create_insufficient u now rid (getProduct_single rs aud hid) hlt⟩

/-- Witness for C2: on a product with 5 available units, a purchase of 3
commits, and a purchase of 9 fails leaving the store untouched. -/
theorem reserve_contract_witness :
    (perform_create ⟨[cexProduct], [], []⟩ 1 none 3 0 7).2 = none ∧
    perform_create ⟨[cexProduct], [], []⟩ 1 none 9 0 7 =
      (⟨[cexProduct], [], []⟩, some InvErr.insufficientStock) :=
  ⟨by rw [(reserve_contract cexProduct 1 none 3 0 7 [] [] rfl (by decide)).1 (by decide)],
   (reserve_contract cexProduct 1 none 9 0 7 [] [] rfl (by decide)).2 (by decide)⟩

/-- C4: a requested status change (new ≠ current) not listed in the
transition table fails with the invalid-transition error leaving the order
and the audit log unchanged; delivered and cancelled orders reject every
requested status change. -/
theorem invalid_transition_rejected :
    (∀ (o : Order) (s : OrderStatus) (actor : String) (aud : List AuditEntry),
      s ≠ o.status → o.can_transition_to s = false →
      perform_update o s actor aud = ((o, aud), some InvErr.invalidTransition)) ∧
    (∀ (o : Order) (s : OrderStatus) (actor : String) (aud : List AuditEntry),
      (o.status = .delivered ∨ o.status = .cancelled) → s ≠ o.status →
      perform_update o s actor aud = ((o, aud), some InvErr.invalidTransition)) :=
  ⟨fun _ _ actor aud hne hcan => perform_update_invalid actor aud hne hcan,
   fun _ s actor aud hterm hne =>
     perform_update_invalid actor aud hne (can_transition_terminal s hterm)⟩

/-- Witness for C4: pending → shipped is rejected, and a delivered order
rejects a requested move to pending. -/
theorem invalid_transition_rejected_witness :
    perform_update demoOrder .shipped "System" [] =
      ((demoOrder, []), some InvErr.invalidTransition) ∧
    perform_update demoDelivered .pending "System" [] =
      ((demoDelivered, []), some InvErr.invalidTransition) :=
  ⟨invalid_transition_rejected.1 demoOrder .shipped "System" [] (by decide) (by decide),
   invalid_transition_rejected.2 demoDelivered .pending "System" [] (Or.inl rfl) (by decide)⟩

/-- C7: every order save stores total = quantity × price, regardless of any
caller-submitted total and also on status-only saves; with quantity 3 and
price 10.00 the saved total is 30.00. -/
theorem order_total_recomputed :
    (∀ (o : Order) (submitted : ℚ),
      (Order.save { o with total := submitted }).total =
        (o.quantity : ℚ) * o.product.price) ∧
    (∀ (o : Order) (s : OrderStatus),
      (Order.save { o with status := s }).total =
        (o.quantity : ℚ) * o.product.price) ∧
    (Order.save demoOrder).total = 30 := by
  refine ⟨fun o submitted => rfl, fun o s => rfl, ?_⟩
  show ((3 : Nat) : ℚ) * (10 : ℚ) = 30
  norm_num

/-- C9: Product.save first substitutes total − reserved for a missing
available_stock, then clamps both mutable fields at 0 before the invariant
check, and every successfully persisted pair is non-negative and sums to
total_stock — a field is never stored negative. -/
theorem product_save_fills_clamps_checks :
    (∀ (r t : Int), product_save_fields none r t =
      product_save_fields (some (t - r)) r t) ∧
    (∀ (a r t : Int), product_save_fields (some a) r t =
      product_save_fields (some (max 0 a)) (max 0 r) t) ∧
    (∀ (a? : Option Int) (r t a' r' : Int),
      product_save_fields a? r t = .ok (a', r') →
      0 ≤ a' ∧ 0 ≤ r' ∧ a' + r' = t) := by
  refine ⟨fun r t => rfl, fun a r t => ?_, fun _ _ _ _ _ h => product_save_fields_ok h⟩
  have h1 : max 0 (max 0 a) = max 0 a := by omega
  have h2 : max 0 (max 0 r) = max 0 r := by omega
  simp [product_save_fields, fill_available, h1, h2]

/-- Witness for C9: the balanced pair (2, 3) of total 5 saves unchanged and
is non-negative. -/
theorem product_save_fills_clamps_checks_witness :
    product_save_fields (some 2) 3 5 = .ok (2, 3) ∧
    (0 ≤ (2 : Int) ∧ 0 ≤ (3 : Int) ∧ (2 : Int) + 3 = 5) :=
  ⟨by rfl, product_save_fills_clamps_checks.2.2 (some 2) 3 5 2 3 (by rfl)⟩

/-- C10: an update requesting the order's current status is accepted without
the transition check — even though no status lists itself as a valid target —
and appends no audit entry; the order is still saved (total recomputed). -/
theorem same_status_update_accepted :
    ∀ (o : Order) (actor : String) (aud : List AuditEntry),
      perform_update o o.status actor aud = ((Order.save o, aud), none) ∧
      o.can_transition_to o.status = false := by
  intro o actor aud
  refine ⟨perform_update_same o actor aud, ?_⟩
  unfold Order.can_transition_to
  cases h : o.status <;> decide

/-- C3: on a product with N available and 0 reserved units, K > N serialized
one-unit purchase attempts (the per-product exclusive row lock serializes
every interleaving of K concurrent attempts into such a sequence) yield
exactly N successes and K − N insufficient-stock failures, ending with
available_stock 0 and reserved_stock N — no oversell. -/
theorem concurrent_purchases_no_oversell (N K pid : Nat) (p : Product)
    (rs : List Reservation) (aud : List AuditEntry) (hid : p.id = pid)
    (hv : validProduct p) (hA : p.available_stock = (N : Int))
    (hR : p.reserved_stock = 0) (hK : N < K) :
    (run_purchases pid 1 K ⟨[p], rs, aud⟩).1 = N ∧
    (run_purchases pid 1 K ⟨[p], rs, aud⟩).2.1 = K - N ∧
    ∃ q rs2 aud2, (run_purchases pid 1 K ⟨[p], rs, aud⟩).2.2 = ⟨[q], rs2, aud2⟩ ∧
      q.available_stock = 0 ∧ q.reserved_stock = (N : Int) := by
  obtain ⟨h1, h2, q, rs2, aud2, h3, h4, h5, h6, h7⟩ :=
    run_purchases_count pid K p rs aud N hid hv hA
  have hmin : min N K = N := by omega
  rw [hmin] at h1 h2 h6 h7
  refine ⟨h1, h2, q, rs2, aud2, h3, ?_, ?_⟩
  · rw [h6, hA]; omega
  · rw [h7, hR]; omega

/-- Witness for C3 with the spec's concrete numbers: N = 5, K = 50 on
`cexProduct`. -/
theorem concurrent_purchases_no_oversell_witness :
    (run_purchases 1 1 50 ⟨[cexProduct], [], []⟩).1 = 5 ∧
    (run_purchases 1 1 50 ⟨[cexProduct], [], []⟩).2.1 = 45 ∧
    ∃ q rs2 aud2, (run_purchases 1 1 50 ⟨[cexProduct], [], []⟩).2.2 =
      ⟨[q], rs2, aud2⟩ ∧ q.available_stock = 0 ∧
      q.reserved_stock = ((5 : Nat) : Int) :=
  concurrent_purchases_no_oversell 5 50 1 cexProduct [] [] rfl (by decide)
    (by decide) (by decide) (by decide)

/-- C8: a committed purchase appends exactly two audit rows (stock_adjusted
then reservation_created); a committed status change appends exactly the one
order_status_changed row carrying the old and new status snapshots; a failed,
rolled-back purchase or status update appends none. -/
theorem audit_trail_counts :
    (∀ (st : DbState) (pid : Nat) (u : Option String) (qty : Nat) (now : Int)
        (rid : Nat) (st' : DbState),
      perform_create st pid u qty now rid = (st', none) →
      ∃ e1 e2, st'.audit = st.audit ++ [e1, e2] ∧ e1.action = "stock_adjusted" ∧
        e2.action = "reservation_created") ∧
    (∀ (o : Order) (s : OrderStatus) (actor : String) (aud : List AuditEntry)
        (o' : Order) (aud' : List AuditEntry),
      s ≠ o.status → perform_update o s actor aud = ((o', aud'), none) →
      aud' = aud ++ [order_status_changed_entry actor o.id o.status s]) ∧
    (∀ (st : DbState) (pid : Nat) (u : Option String) (qty : Nat) (now : Int)
        (rid : Nat) (st' : DbState) (e : InvErr),
      perform_create st pid u qty now rid = (st', some e) → st' = st) ∧
    (∀ (o : Order) (s : OrderStatus) (actor : String) (aud : List AuditEntry)
        (o' : Order) (aud' : List AuditEntry) (e : InvErr),
      perform_update o s actor aud = ((o', aud'), some e) → aud' = aud) :=
  ⟨fun _ _ _ _ _ _ _ h => perform_create_audit_of_ok h,
   fun _ _ _ _ _ _ hne h => perform_update_audit_of_ok hne h,
   fun _ _ _ _ _ _ _ _ h => perform_create_rollback h,
   fun _ _ _ _ _ _ _ h => (perform_update_rollback h).2⟩

/-- Witness for C8: a committed purchase of 2 units, a committed
pending → confirmed change, a failed purchase of 9 units and a rejected
pending → shipped change. -/
theorem audit_trail_counts_witness :
    (∃ e1 e2, (perform_create demoState 1 none 2 0 7).1.audit =
        demoState.audit ++ [e1, e2] ∧ e1.action = "stock_adjusted" ∧
        e2.action = "reservation_created") ∧
    (perform_update demoOrder .confirmed "System" []).1.2 =
      [] ++ [order_status_changed_entry "System" demoOrder.id demoOrder.status
        .confirmed] ∧
    (perform_create demoState 1 none 9 0 7).1 = demoState ∧
    (perform_update demoOrder .shipped "System" []).1.2 = [] :=
  ⟨audit_trail_counts.1 demoState 1 none 2 0 7
      (perform_create demoState 1 none 2 0 7).1 (by rfl),
   audit_trail_counts.2.1 demoOrder .confirmed "System" []
     (perform_update demoOrder .confirmed "System" []).1.1
     (perform_update demoOrder .confirmed "System" []).1.2 (by decide) (by rfl),
   audit_trail_counts.2.2.1 demoState 1 none 9 0 7
     (perform_create demoState 1 none 9 0 7).1 InvErr.insufficientStock (by rfl),
   audit_trail_counts.2.2.2 demoOrder .shipped "System" []
     (perform_update demoOrder .shipped "System" []).1.1
     (perform_update demoOrder .shipped "System" []).1.2 InvErr.invalidTransition
     (by rfl)⟩

/-- Counterexample to C5 as stated: the Celery task's reclamation pass
performs no clamp. On the expired reservation for 3 units of a product with 0
units reserved, the claim predicts a release of min(3, 0) = 0, exactly two
audit rows and deletion of the reservation; instead the task's save raises
the invariant violation, so the pass writes no audit rows, keeps the
reservation and reports the error. -/
theorem task_cleanup_no_clamp_cex :
    (cleanup_expired_reservations 5 cexState).1 = cexState ∧
    (cleanup_expired_reservations 5 cexState).2 = some InvErr.invariantViolation ∧
    ¬ ((cleanup_expired_reservations 5 cexState).1.audit.length = 2 ∧
       (cleanup_expired_reservations 5 cexState).1.reservations = []) := by
  decide

/-- C5 (amended): on a valid product, the management command's reclamation
step releases exactly min(Q, reserved_stock) from reserved back to available,
appends exactly the stock_adjusted and reservation_expired audit rows and
deletes the reservation; the Celery task's step coincides with it whenever
Q ≤ reserved_stock, and when Q > reserved_stock it fails with the invariant
violation, rolling back and reclaiming nothing. -/
theorem reclamation_clamped_release (p : Product) (r : Reservation)
    (rs : List Reservation) (aud : List AuditEntry)
    (hid : p.id = r.product_id) (hv : validProduct p) :
    (command_release_step ⟨[p], rs, aud⟩ r =
      (⟨[{ p with
           available_stock := p.available_stock + min (r.quantity : Int) p.reserved_stock,
           reserved_stock := p.reserved_stock - min (r.quantity : Int) p.reserved_stock }],
        rs.filter (fun s => s.id != r.id),
        aud ++ [stock_adjusted_entry "System" p.id p.available_stock p.reserved_stock
            (p.available_stock + min (r.quantity : Int) p.reserved_stock)
            (p.reserved_stock - min (r.quantity : Int) p.reserved_stock),
          reservation_expired_entry r.id]⟩, none)) ∧
    ((r.quantity : Int) ≤ p.reserved_stock →
      task_release_step ⟨[p], rs, aud⟩ r = command_release_step ⟨[p], rs, aud⟩ r) ∧
    (p.reserved_stock < (r.quantity : Int) →
      task_release_step ⟨[p], rs, aud⟩ r =
        (⟨[p], rs, aud⟩, some InvErr.invariantViolation)) :=
  ⟨command_release_step_single rs aud hid hv,
   fun hq => task_release_step_clamped rs aud hid hq,
   fun hq => task_release_step_overrelease rs aud hid hv hq⟩

/-- Witness for C5 (amended): a product with 3 of 10 units reserved and an
expired reservation for exactly those 3 units. -/
theorem reclamation_clamped_release_witness :
    (command_release_step ⟨[w5Product], [w5Res], []⟩ w5Res).2 = none ∧
    task_release_step ⟨[w5Product], [w5Res], []⟩ w5Res =
      command_release_step ⟨[w5Product], [w5Res], []⟩ w5Res :=
  ⟨by rw [(reclamation_clamped_release w5Product w5Res [w5Res] [] rfl (by decide)).1],
   (reclamation_clamped_release w5Product w5Res [w5Res] [] rfl (by decide)).2.1
     (by decide)⟩

/-- Counterexample to C6 as stated: with two expired reservations queued, the
failure on the first (quantity 3 with 0 reserved, no clamp in the task)
aborts the unguarded loop, so the second expired reservation is never
processed — it survives the pass and no audit rows at all are written. -/
theorem reclamation_abort_cex :
    (cleanup_expired_reservations 5 cexBatchState).2 = some InvErr.invariantViolation ∧
    cexReservation2 ∈ (cleanup_expired_reservations 5 cexBatchState).1.reservations ∧
    (cleanup_expired_reservations 5 cexBatchState).1.audit = [] := by
  decide

/-- C6 (amended): in a reclamation batch, a failure on one reservation rolls
back only that reservation's own transaction — the states committed for the
reservations already processed stay durable and the failing step leaves the
store exactly as those commits left it — but the error propagates out of the
unguarded loop, so the remaining reservations of the batch are left
unprocessed. -/
theorem reclamation_failure_isolation (done : List Reservation)
    (bad : Reservation) (rest : List Reservation) (st1 : DbState) (e : InvErr) :
    ∀ (st : DbState), run_cleanup task_release_step done st = (st1, none) →
      (task_release_step st1 bad).2 = some e →
      run_cleanup task_release_step (done ++ bad :: rest) st = (st1, some e) := by
  induction done with
  | nil =>
    intro st hdone hbad
    have h1 : st1 = st := (congrArg Prod.fst hdone).symm
    have hroll : (task_release_step st1 bad).1 = st1 := task_release_step_rollback hbad
    rcases hstep : task_release_step st1 bad with ⟨a, b⟩
    rw [hstep] at hbad hroll
    dsimp only at hbad hroll
    simp only [List.nil_append]
    unfold run_cleanup
    rw [h1] at hstep
    rw [hstep, hbad]
    dsimp only
    rw [hroll]
  | cons d ds ih =>
    intro st hdone hbad
    unfold run_cleanup at hdone
    rcases hstep : task_release_step st d with ⟨st2, err⟩
    rw [hstep] at hdone
    cases err with
    | none =>
      dsimp only at hdone
      simp only [List.cons_append]
      unfold run_cleanup
      rw [hstep]
      dsimp only
      exact ih st2 hdone hbad
    | some e2 =>
      dsimp only at hdone
      exact absurd (congrArg Prod.snd hdone) (by simp)

/-- Witness for C6 (amended): after `w6good` is reclaimed, the over-released
`w6bad` fails and the batch run stops at the post-`w6good` state, with
`w6later` unprocessed. -/
theorem reclamation_failure_isolation_witness :
    run_cleanup task_release_step ([w6good] ++ w6bad :: [w6later]) w6State =
      (w6Mid, some InvErr.invariantViolation) :=
  reclamation_failure_isolation [w6good] w6bad [w6later] w6Mid
    InvErr.invariantViolation w6State (by rfl) (by rfl)

end Inventory
